import Mathlib

/-
  Verification of the threshold-classification and exposure-aggregation logic
  of the ds-rosea-thresholds repository.

  The Python sources are shallowly embedded: pandas cells are modelled by the
  `PVal` type (an exact rational number, a float NaN, or a pandas NA from a
  nullable Int64 column), Python boolean evaluation over such cells by `PBool`
  (True / False / NA, where taking the truth value of NA raises a TypeError,
  modelled with `Except`), and dataframes by lists of records.  Floats are
  modelled as exact rationals; every threshold constant of the repository is
  exactly representable and the products 0.03*100 and 0.05*100 evaluate to
  exactly 3 and 5 in IEEE double arithmetic, so the rational model agrees with
  the float computation at every comparison used below.
-/

namespace Constants

-- src/constants.py, lines 24-46
def HIGH_CONSEC : ℕ := 3
def VH_S_POP_4 : ℚ := 500000
def VH_D_PR_3 : ℚ := 25 / 100
def VH_D_IN_4 : ℚ := 3 / 100
def H_S_POP_4 : ℚ := 200000
def H_D_PR_3 : ℚ := 25 / 100
def H_D_IN_3 : ℚ := 5 / 100
def M_PR_3 : ℚ := 18 / 100
def M_POP_4 : ℚ := 50000
def POP_THRESH : ℚ := 1 / 10

end Constants

/-- A pandas scalar cell: an ordinary number, a float NaN, or a pandas NA
(the missing value of a nullable Int64 column, produced by
`.round().astype("Int64")` in `_transform_wide`). -/
inductive PVal where
  | num (q : ℚ)
  | nan
  | na
deriving DecidableEq, Repr

/-- Result of a Python comparison on pandas scalars: True, False, or pd.NA. -/
inductive PBool where
  | ptrue
  | pfalse
  | pna
deriving DecidableEq, Repr

def PBool.ofBool (b : Bool) : PBool := if b then .ptrue else .pfalse

/-- Python `x >= c`: float NaN comparisons are False, pd.NA propagates. -/
def PVal.ge (x : PVal) (c : ℚ) : PBool :=
  match x with
  | .num q => if c ≤ q then .ptrue else .pfalse
  | .nan => .pfalse
  | .na => .pna

/-- `pd.notna`: true exactly on ordinary numbers. -/
def PVal.notna : PVal → Bool
  | .num _ => true
  | .nan => false
  | .na => false

/-- Python truthiness; `bool(pd.NA)` raises a TypeError. -/
def PBool.toBool : PBool → Except String Bool
  | .ptrue => .ok true
  | .pfalse => .ok false
  | .pna => .error "TypeError: boolean value of NA is ambiguous"

/-- Python `x and y`: evaluates `bool(x)`; returns `x` when falsy, else `y`. -/
def pyAnd (x y : PBool) : Except String PBool :=
  (x.toBool).bind fun b => if b then .ok y else .ok x

/-- Python `x or y`: evaluates `bool(x)`; returns `x` when truthy, else `y`. -/
def pyOr (x y : PBool) : Except String PBool :=
  (x.toBool).bind fun b => if b then .ok x else .ok y

/-- Python `pd.notna(d) and d >= c` (never raises: the left operand is a real
bool, and when it is true `d` is an ordinary number). -/
def pandNotna (d : PVal) (c : ℚ) : PBool :=
  if d.notna then d.ge c else .pfalse

instance instDecEqExcept {ε α : Type} [DecidableEq ε] [DecidableEq α] :
    DecidableEq (Except ε α) := fun a b =>
  match a, b with
  | .error e, .error f => decidable_of_iff (e = f) (by simp)
  | .ok x, .ok y => decidable_of_iff (x = y) (by simp)
  | .error _, .ok _ => isFalse (fun h => Except.noConfusion h)
  | .ok _, .error _ => isFalse (fun h => Except.noConfusion h)

@[simp] theorem except_bind_ok (a : α) (f : α → Except String β) :
    (Except.ok a : Except String α).bind f = f a := rfl

@[simp] theorem except_bind_error (e : String) (f : α → Except String β) :
    (Except.error e : Except String α).bind f = Except.error e := rfl

@[simp] theorem pbool_toBool_ofBool (b : Bool) :
    (PBool.ofBool b).toBool = .ok b := by
  cases b <;> rfl

@[simp] theorem pyAnd_ofBool (a : Bool) (y : PBool) :
    pyAnd (PBool.ofBool a) y = .ok (if a then y else PBool.ofBool a) := by
  cases a <;> rfl

@[simp] theorem pyOr_ofBool (a : Bool) (y : PBool) :
    pyOr (PBool.ofBool a) y = .ok (if a then PBool.ofBool a else y) := by
  cases a <;> rfl

/-- One row of the wide IPC table as consumed by `_classify_row`
(src/src/datasources/ipc.py, lines 114-142).  `proportion_3+` is a float
column (num or NaN); `population_4+`, `pt_change_3+` and `pt_change_4+` are
nullable Int64 columns (num or NA) after the casts of `_transform_wide`. -/
structure IpcRow where
  proportion3 : PVal
  population4 : PVal
  ptChange3 : PVal
  ptChange4 : PVal
deriving DecidableEq, Repr

namespace Ipc

open Constants

/-- src/src/datasources/ipc.py `_classify_row` (lines 114-142), including the
Python evaluation order: the five criterion assignments run first, then the
if/elif chain takes truth values (which raises on pd.NA). -/
def classify_row (row : IpcRow) : Except String String :=
  let P3 := row.proportion3
  let PP4 := row.population4
  let D3 := row.ptChange3
  let D4 := row.ptChange4
  let vhs := PP4.ge VH_S_POP_4
  (pyAnd (P3.ge VH_D_PR_3) (pandNotna D4 (VH_D_IN_4 * 100))).bind fun vhd =>
  let hs := PP4.ge H_S_POP_4
  (pyAnd (P3.ge H_D_PR_3) (pandNotna D3 (H_D_IN_3 * 100))).bind fun hd =>
  (pyOr (P3.ge M_PR_3) (PP4.ge M_POP_4)).bind fun med =>
  ((pyAnd vhs vhd).bind PBool.toBool).bind fun b1 =>
  if b1 then .ok "very high - all criteria" else
  (vhs.toBool).bind fun b2 =>
  if b2 then .ok "very high - emergency" else
  (vhd.toBool).bind fun b3 =>
  if b3 then .ok "very high - deteriorating" else
  ((pyAnd hs hd).bind PBool.toBool).bind fun b4 =>
  if b4 then .ok "high - all criteria" else
  (hs.toBool).bind fun b5 =>
  if b5 then .ok "high - emergency" else
  (hd.toBool).bind fun b6 =>
  if b6 then .ok "high - deteriorating" else
  (med.toBool).bind fun b7 =>
  if b7 then .ok "medium" else .ok "low"

/-- Spec-side criterion test: a metric meets a bound only when it is an
ordinary (non-missing) number at least the bound. -/
def specMet (x : PVal) (c : ℚ) : Bool :=
  match x with
  | .num q => decide (c ≤ q)
  | _ => false

/-- Modelled from the spec: the alert decision tree of §4.3 step 6, evaluated
in the stated fixed priority order with first match winning, using the literal
thresholds VH_S_POP_4=500000, VH_D_PR_3=0.25, VH_D_IN_4*100=3,
H_S_POP_4=200000, H_D_PR_3=0.25, H_D_IN_3*100=5, M_PR_3=0.18, M_POP_4=50000;
the deteriorating criteria require a non-null pt_change. -/
def classifySpecTree (row : IpcRow) : String :=
  let vhS := specMet row.population4 500000
  let vhD := specMet row.proportion3 (25 / 100) && specMet row.ptChange4 3
  let hS := specMet row.population4 200000
  let hD := specMet row.proportion3 (25 / 100) && specMet row.ptChange3 5
  let med := specMet row.proportion3 (18 / 100) || specMet row.population4 50000
  if vhS && vhD then "very high - all criteria"
  else if vhS then "very high - emergency"
  else if vhD then "very high - deteriorating"
  else if hS && hD then "high - all criteria"
  else if hS then "high - emergency"
  else if hD then "high - deteriorating"
  else if med then "medium"
  else "low"

theorem pval_ge_ofBool (x : PVal) (hx : x ≠ PVal.na) (c : ℚ) :
    x.ge c = PBool.ofBool (specMet x c) := by
  cases x with
  | num q => simp [PVal.ge, specMet, PBool.ofBool]
  | nan => rfl
  | na => exact absurd rfl hx

theorem pandNotna_eq (d : PVal) (c : ℚ) :
    pandNotna d c = PBool.ofBool (specMet d c) := by
  cases d with
  | num q => simp [pandNotna, PVal.notna, PVal.ge, specMet, PBool.ofBool]
  | nan => rfl
  | na => rfl

theorem specMet_of_notna_false (d : PVal) (h : d.notna = false) (c : ℚ) :
    specMet d c = false := by
  cases d with
  | num q => simp [PVal.notna] at h
  | nan => rfl
  | na => rfl

/-- Splitting a list of characters on the separator " - ", as
`Series.str.split(" - ")` does per cell. -/
def splitDashAux : List Char → List Char → List (List Char)
  | [], acc => [acc.reverse]
  | ' ' :: '-' :: ' ' :: rest, acc => acc.reverse :: splitDashAux rest []
  | c :: rest, acc => splitDashAux rest (c :: acc)

def splitDash (s : String) : List String :=
  (splitDashAux s.toList []).map List.asString

/-- src/src/datasources/ipc.py `classify_reports` (lines 61-71), restricted to
the classification and category-splitting steps on an already-wide frame:
apply `_classify_row` to every row, then
`str.split(" - ", expand=True)` and read columns 0 and 1.  With
`expand=True` the split frame has as many columns as the maximal number of
parts; when no category in the frame contains " - " there is no column 1 and
`split_categories[1]` raises a KeyError. -/
def classify_reports (rows : List IpcRow) :
    Except String (List (String × Option String)) :=
  (rows.mapM classify_row).bind fun cats =>
  let ncols := (cats.map (fun c => (splitDash c).length)).foldr max 0
  if ncols < 2 then .error "KeyError: 1"
  else .ok (cats.map fun c => ((splitDash c).headD c, (splitDash c)[1]?))

end Ipc

/-- The source row of claim C2's scenario: proportion_3+ = 0.30,
population_4+ = 600000, pt_change_4+ = 5 (comparable), pt_change_3+ missing. -/
def scenarioRowC2 : IpcRow := ⟨.num (3 / 10), .num 600000, .na, .num 5⟩

/-- A wide IPC record in which every classification input is missing:
proportion_3+ is float NaN, the Int64 columns are pd.NA. -/
def allMissingRow : IpcRow := ⟨.nan, .na, .na, .na⟩

/-- Shared refinement lemma: away from the pd.NA truth-value trap,
`_classify_row` computes the spec-side decision tree. -/
theorem classify_row_refines_spec (row : IpcRow)
    (h3 : row.proportion3 ≠ PVal.na) (h4 : row.population4 ≠ PVal.na) :
    Ipc.classify_row row = Except.ok (Ipc.classifySpecTree row) := by
  have hc4 : Constants.VH_D_IN_4 * 100 = 3 := by norm_num [Constants.VH_D_IN_4]
  have hc3 : Constants.H_D_IN_3 * 100 = 5 := by norm_num [Constants.H_D_IN_3]
  unfold Ipc.classify_row Ipc.classifySpecTree
  simp only [Ipc.pval_ge_ofBool _ h3, Ipc.pval_ge_ofBool _ h4,
    Ipc.pandNotna_eq, hc4, hc3,
    Constants.VH_S_POP_4, Constants.VH_D_PR_3, Constants.H_S_POP_4,
    Constants.H_D_PR_3, Constants.M_PR_3, Constants.M_POP_4]
  generalize Ipc.specMet row.population4 500000 = b1
  generalize Ipc.specMet row.proportion3 (25 / 100) = b2
  generalize Ipc.specMet row.ptChange4 3 = b3
  generalize Ipc.specMet row.population4 200000 = b4
  generalize Ipc.specMet row.ptChange3 5 = b5
  generalize Ipc.specMet row.proportion3 (18 / 100) = b6
  generalize Ipc.specMet row.population4 50000 = b7
  revert b1 b2 b3 b4 b5 b6 b7
  decide

/-- C2: `_classify_row` evaluates the decision tree in the fixed priority
order of the spec with first match winning and the stated thresholds
(very-high before high before medium before low), and the deteriorating
criteria require their pt_change field to be non-null: whenever the inputs
that Python's `and`/`or` force to a truth value (proportion_3+ and
population_4+) are not pd.NA, the code equals the spec-side tree
`classifySpecTree`, and a missing pt_change_4+ can never produce a
"very high - deteriorating" or "very high - all criteria" result. -/
theorem C2_ipc_decision_tree (row : IpcRow)
    (h3 : row.proportion3 ≠ PVal.na) (h4 : row.population4 ≠ PVal.na) :
    Ipc.classify_row row = Except.ok (Ipc.classifySpecTree row) ∧
    (row.ptChange4.notna = false →
      Ipc.classifySpecTree row ≠ "very high - deteriorating" ∧
      Ipc.classifySpecTree row ≠ "very high - all criteria") := by
  refine ⟨classify_row_refines_spec row h3 h4, ?_⟩
  · intro hna
    unfold Ipc.classifySpecTree
    simp only [Ipc.specMet_of_notna_false _ hna, Bool.and_false]
    generalize Ipc.specMet row.population4 500000 = b1
    generalize Ipc.specMet row.proportion3 (25 / 100) = b2
    generalize Ipc.specMet row.ptChange3 5 = b5
    generalize Ipc.specMet row.population4 200000 = b4
    generalize Ipc.specMet row.proportion3 (18 / 100) = b6
    generalize Ipc.specMet row.population4 50000 = b7
    revert b1 b2 b4 b5 b6 b7
    decide

/-- C2 witness: the scenario record is classified "very high - all criteria"
(it satisfies both VH_S population ≥ 500000 and VH_D proportion ≥ 0.25 with
change ≥ 3). -/
theorem C2_witness :
    Ipc.classify_row scenarioRowC2 = Except.ok "very high - all criteria" := by
  have h := (C2_ipc_decision_tree scenarioRowC2 (by decide) (by decide)).1
  rw [h]
  norm_num [Ipc.classifySpecTree, Ipc.specMet, scenarioRowC2]

/-- C10 counterexample: on a frame holding one record whose classification
inputs are all missing, `classify_reports` raises a TypeError instead of
returning "low": `population_4+` is pd.NA after the Int64 cast, so
`PP4 >= VH_S_POP_4` is pd.NA and the first
`if very_high_severe and very_high_deteriorating` takes the truth value of
pd.NA, which raises. -/
theorem C10_counterexample :
    Ipc.classify_reports [allMissingRow] =
      Except.error "TypeError: boolean value of NA is ambiguous" := by decide

/-- C10 amended: missing metrics only fall through to "low" when
`population_4+` itself is a real number; with proportion_3+ missing (NaN),
both pt_change fields missing, and population_4+ a number below 50000, the
row classifies as "low" (null detail comes from the frame-level split). -/
theorem C10_low_on_missing_metrics (p : ℚ) (hp : p < 50000) (d3 d4 : PVal)
    (h3 : d3.notna = false) (h4 : d4.notna = false) :
    Ipc.classify_row ⟨PVal.nan, PVal.num p, d3, d4⟩ = Except.ok "low" := by
  have h := classify_row_refines_spec ⟨PVal.nan, PVal.num p, d3, d4⟩
    (by simp) (by simp)
  rw [h]
  unfold Ipc.classifySpecTree
  simp only [Ipc.specMet_of_notna_false _ h3, Ipc.specMet_of_notna_false _ h4,
    Bool.and_false, Bool.false_and]
  have h1 : Ipc.specMet (PVal.num p) 500000 = false := by
    simp [Ipc.specMet]; linarith
  have h2 : Ipc.specMet (PVal.num p) 200000 = false := by
    simp [Ipc.specMet]; linarith
  have h5 : Ipc.specMet (PVal.num p) 50000 = false := by
    simp [Ipc.specMet]; linarith
  have h6 : Ipc.specMet PVal.nan (25 / 100) = false := rfl
  have h7 : Ipc.specMet PVal.nan (18 / 100) = false := rfl
  simp [h1, h2, h5, h6, h7]

/-- C10 witness: a concrete record with missing proportion and pt_change
fields and population_4+ = 1000 classifies as "low". -/
theorem C10_witness :
    Ipc.classify_row ⟨PVal.nan, PVal.num 1000, PVal.na, PVal.na⟩ =
      Except.ok "low" :=
  C10_low_on_missing_metrics 1000 (by norm_num) PVal.na PVal.na rfl rfl

/-- One wide row of `_transform_wide` (per location, sorted ascending by
period start `From`), before the point-change columns are added. -/
structure WideRow where
  populationAnalyzed : ℚ
  proportion3 : ℚ
  proportion4 : ℚ
deriving DecidableEq, Repr

namespace Ipc

/-- src/src/datasources/ipc.py, lines 168-172: per location,
`abs(diff(population_analyzed)) / shift(population_analyzed) <= POP_THRESH`.
The first period of a location has no previous period (NaN diff compares
False), and a zero previous population gives inf or NaN, also False; both are
modelled by the explicit guards. -/
def pop_comparable (rows : List WideRow) : ℕ → Bool
  | 0 => false
  | j + 1 =>
    match rows[j]?, rows[j + 1]? with
    | some p, some c =>
      decide (p.populationAnalyzed ≠ 0) &&
        decide (|c.populationAnalyzed - p.populationAnalyzed| /
          p.populationAnalyzed ≤ Constants.POP_THRESH)
    | _, _ => false

/-- numpy rounding to the nearest integer, ties to even, as applied by
`.round()` before the `Int64` cast. -/
def roundHalfEven (q : ℚ) : ℤ :=
  if q - ⌊q⌋ < 1 / 2 then ⌊q⌋
  else if 1 / 2 < q - ⌊q⌋ then ⌊q⌋ + 1
  else if ⌊q⌋ % 2 = 0 then ⌊q⌋ else ⌊q⌋ + 1

/-- src/src/datasources/ipc.py, lines 177-212: per location,
`diff(proportion) * 100`, set to null where not comparable, then rounded and
cast to nullable Int64.  `proj` selects the proportion column (3+ or 4+). -/
def pt_change (proj : WideRow → ℚ) (rows : List WideRow) : ℕ → Option ℤ
  | 0 => none
  | j + 1 =>
    match rows[j]?, rows[j + 1]? with
    | some p, some c =>
      if pop_comparable rows (j + 1) then
        some (roundHalfEven (100 * (proj c - proj p)))
      else none
    | _, _ => none

theorem pt_change_none_of_incomparable (proj : WideRow → ℚ)
    (rows : List WideRow) (i : ℕ) (h : pop_comparable rows i = false) :
    pt_change proj rows i = none := by
  cases i with
  | zero => rfl
  | succ j =>
    cases hp : rows[j]? with
    | none => simp [pt_change, hp]
    | some p =>
      cases hc : rows[j + 1]? with
      | none => simp [pt_change, hp, hc]
      | some c => simp [pt_change, hp, hc, h]

theorem pt_change_of_comparable (proj : WideRow → ℚ) (rows : List WideRow)
    (j : ℕ) (p c : WideRow) (hp : rows[j]? = some p)
    (hc : rows[j + 1]? = some c) (h : pop_comparable rows (j + 1) = true) :
    pt_change proj rows (j + 1) = some (roundHalfEven (100 * (proj c - proj p))) := by
  unfold pt_change
  simp [hp, hc, h]

theorem roundHalfEven_zero : roundHalfEven 0 = 0 := by
  norm_num [roundHalfEven]

end Ipc

/-- C1 counterexample input: one location, two periods with equal analyzed
population (comparable) whose proportion_3+ moves from 0.100 to 0.253. -/
def c1Rows : List WideRow := [⟨1000, 1 / 10, 1 / 10⟩, ⟨1000, 253 / 1000, 1 / 10⟩]

/-- C1 counterexample: the transition is comparable and the true
percentage-point change is 15.3, but the produced `pt_change_3+` is the
integer 15 (rounded by the Int64 cast), which differs from
100*(proportion_3+[t] - proportion_3+[t-1]) by 0.3, far beyond the claimed
1e-6 tolerance. -/
theorem C1_counterexample :
    Ipc.pop_comparable c1Rows 1 = true ∧
    Ipc.pt_change WideRow.proportion3 c1Rows 1 = some 15 ∧
    ¬ |(15 : ℚ) - 100 * (253 / 1000 - 1 / 10)| ≤ 1 / 1000000 := by
  have hcomp : Ipc.pop_comparable c1Rows 1 = true := by
    norm_num [Ipc.pop_comparable, c1Rows, Constants.POP_THRESH]
  refine ⟨hcomp, ?_, ?_⟩
  · rw [Ipc.pt_change_of_comparable WideRow.proportion3 c1Rows 0 _ _ rfl rfl hcomp]
    have h1 : (100 : ℚ) * ((253 / 1000 : ℚ) - 1 / 10) = 153 / 10 := by norm_num
    have hfl : ⌊(153 / 10 : ℚ)⌋ = 15 := by
      rw [Int.floor_eq_iff]
      norm_num
    simp only [c1Rows, h1, Ipc.roundHalfEven, hfl]
    norm_num
  · intro h
    rw [abs_le] at h
    have h1 := h.1
    norm_num at h1

/-- C1 amended: for every per-location wide table, `pt_change_3+` and
`pt_change_4+` are null whenever `pop_comparable` is false (in particular at
the first period of a location), and otherwise equal
100*(proportion[t] - proportion[t-1]) rounded half-to-even to an integer by
the Int64 cast; a comparable zero change yields 0, never null. -/
theorem C1_pt_change_gated (rows : List WideRow) (j : ℕ) (p c : WideRow)
    (hp : rows[j]? = some p) (hc : rows[j + 1]? = some c) :
    (∀ i, Ipc.pop_comparable rows i = false →
      Ipc.pt_change WideRow.proportion3 rows i = none ∧
      Ipc.pt_change WideRow.proportion4 rows i = none) ∧
    (Ipc.pop_comparable rows (j + 1) = true →
      Ipc.pt_change WideRow.proportion3 rows (j + 1) =
        some (Ipc.roundHalfEven (100 * (c.proportion3 - p.proportion3))) ∧
      Ipc.pt_change WideRow.proportion4 rows (j + 1) =
        some (Ipc.roundHalfEven (100 * (c.proportion4 - p.proportion4))) ∧
      (c.proportion3 = p.proportion3 →
        Ipc.pt_change WideRow.proportion3 rows (j + 1) = some 0)) := by
  refine ⟨fun i hi => ⟨Ipc.pt_change_none_of_incomparable _ rows i hi,
    Ipc.pt_change_none_of_incomparable _ rows i hi⟩, fun hcomp => ?_⟩
  refine ⟨Ipc.pt_change_of_comparable _ rows j p c hp hc hcomp,
    Ipc.pt_change_of_comparable _ rows j p c hp hc hcomp, fun heq => ?_⟩
  rw [Ipc.pt_change_of_comparable _ rows j p c hp hc hcomp, heq]
  norm_num [Ipc.roundHalfEven_zero]

/-- C1 witness input: two comparable periods with identical proportions. -/
def c1ZeroRows : List WideRow := [⟨1000, 1 / 10, 1 / 5⟩, ⟨1000, 1 / 10, 1 / 5⟩]

/-- C1 witness: a comparable zero change yields 0 (never null), and the
first period of a location is incomparable with null pt_change. -/
theorem C1_witness :
    Ipc.pt_change WideRow.proportion3 c1ZeroRows 1 = some 0 ∧
    Ipc.pt_change WideRow.proportion3 c1ZeroRows 0 = none := by
  have h := C1_pt_change_gated c1ZeroRows 0 ⟨1000, 1 / 10, 1 / 5⟩
    ⟨1000, 1 / 10, 1 / 5⟩ rfl rfl
  have hcomp : Ipc.pop_comparable c1ZeroRows 1 = true := by
    norm_num [Ipc.pop_comparable, c1ZeroRows, Constants.POP_THRESH]
  exact ⟨(h.2 hcomp).2.2 rfl, (h.1 0 rfl).1⟩

namespace AsapConfig

-- src/src/asap/config.py, lines 38-52
def WARNING_LEVEL_HIERARCHY : List (String × ℤ) :=
  [("No warning", 0), ("Warning group 1", 1), ("Warning group 2", 2),
   ("Warning group 3", 3), ("Warning group 4", 4), ("Off season", -1),
   ("No crop/rangeland", -2)]

def WARNING_THRESHOLDS : List ℤ := [1, 2, 3, 4]

end AsapConfig

namespace ThresholdAnalyzer

/-- src/src/asap/threshold_analyzer.py, lines 134-138: dict lookup as done by
`Series.map(WARNING_LEVEL_HIERARCHY)` on one cell — a label outside the table
becomes a missing value (NaN), and no exception is raised. -/
def mapWarningLevel (label : String) : Option ℤ :=
  (AsapConfig.WARNING_LEVEL_HIERARCHY.find? (fun kv => decide (kv.1 = label))).map
    Prod.snd

/-- The numeric-column construction of `_process_warnings_data` applied to a
column of labels; total, mirroring `.map` which never raises. -/
def process_warnings (labels : List String) : List (Option ℤ) :=
  labels.map mapWarningLevel

/-- One admin-2 record of a country-month group after the monthly-last
reduction (a single-record group is its own last dekad): population joined
from the population table and the mapped numeric warning level. -/
structure ExposureCell where
  population : ℚ
  numeric : Option ℤ
deriving DecidableEq, Repr

/-- src/src/asap/threshold_analyzer.py, lines 263-266: membership in the
threshold selection `(numeric >= threshold) & (numeric >= 0)`; a missing
numeric level compares False on both sides. -/
def member (c : ExposureCell) (t : ℤ) : Bool :=
  match c.numeric with
  | some v => decide (t ≤ v) && decide (0 ≤ v)
  | none => false

/-- `result["total_population"] = group["population"].sum()` (line 250). -/
def total_population (g : List ExposureCell) : ℚ :=
  (g.map ExposureCell.population).sum

/-- `threshold_pop` of lines 263-266: population sum over the members. -/
def threshold_pop (g : List ExposureCell) (t : ℤ) : ℚ :=
  ((g.filter (fun c => member c t)).map ExposureCell.population).sum

/-- Percentage of lines 269-273, with the divide-by-zero guard
`... if result["total_population"] > 0 else 0`. -/
def threshold_pct (g : List ExposureCell) (t : ℤ) : ℚ :=
  if 0 < total_population g then threshold_pop g t / total_population g * 100
  else 0

end ThresholdAnalyzer

/-- C6 counterexample: a label outside the warning hierarchy is mapped to a
null severity with no error of any kind — `Series.map` silently yields NaN,
refuting "fails with an UnknownCategory error". -/
theorem C6_counterexample :
    ThresholdAnalyzer.process_warnings ["Bogus label"] = [none] := by decide

/-- C6 amended: an unrecognized label is silently mapped to a null (missing)
numeric severity — not an error, and not a default severity such as 0 — and
because threshold membership requires `numeric >= T` and `numeric >= 0`, the
null never counts toward any exposure threshold. -/
theorem C6_unknown_label_null (label : String)
    (h : label ∉ AsapConfig.WARNING_LEVEL_HIERARCHY.map Prod.fst) :
    ThresholdAnalyzer.process_warnings [label] = [none] ∧
    (∀ (t : ℤ) (p : ℚ),
      ThresholdAnalyzer.member ⟨p, ThresholdAnalyzer.mapWarningLevel label⟩ t =
        false) := by
  simp only [AsapConfig.WARNING_LEVEL_HIERARCHY, List.map_cons, List.map_nil,
    List.mem_cons, List.not_mem_nil, or_false, not_or] at h
  obtain ⟨h1, h2, h3, h4, h5, h6, h7⟩ := h
  have hm : ThresholdAnalyzer.mapWarningLevel label = none := by
    simp [ThresholdAnalyzer.mapWarningLevel, AsapConfig.WARNING_LEVEL_HIERARCHY,
      List.find?, Ne.symm h1, Ne.symm h2, Ne.symm h3, Ne.symm h4, Ne.symm h5,
      Ne.symm h6, Ne.symm h7]
  refine ⟨by simp [ThresholdAnalyzer.process_warnings, hm], fun t p => ?_⟩
  rw [ThresholdAnalyzer.member, hm]

/-- C6 witness: the concrete unknown label "Bogus" maps to null and never
counts toward threshold 1. -/
theorem C6_witness :
    ThresholdAnalyzer.process_warnings ["Bogus"] = [none] ∧
    ThresholdAnalyzer.member ⟨5, ThresholdAnalyzer.mapWarningLevel "Bogus"⟩ 1 =
      false := by
  have h := C6_unknown_label_null "Bogus" (by decide)
  exact ⟨h.1, h.2 1 5⟩

/-- C7 counterexample: with population P = 0 the claim fails — the single
record at level 2 gives exposed population 0 (= P) for threshold 1 ≤ 2, but
the percentage is 0, not 100.0, because of the divide-by-zero guard. -/
theorem C7_counterexample :
    ThresholdAnalyzer.threshold_pop [⟨0, some 2⟩] 1 = 0 ∧
    ThresholdAnalyzer.threshold_pct [⟨0, some 2⟩] 1 ≠ 100 := by
  constructor
  · norm_num [ThresholdAnalyzer.threshold_pop, ThresholdAnalyzer.member]
  · norm_num [ThresholdAnalyzer.threshold_pct, ThresholdAnalyzer.total_population]

/-- C7 amended: for a single-admin2 group with positive population P at exact
numeric level `lvl`, every threshold t in {1,2,3,4} with t ≤ lvl yields
exposed population P and percentage 100, every threshold above lvl yields 0,
and a negative sentinel level never counts toward any threshold (membership
requires `numeric >= t` and `numeric >= 0`). -/
theorem C7_single_cell_exposure (P : ℚ) (hP : 0 < P) (lvl t : ℤ)
    (ht : t ∈ AsapConfig.WARNING_THRESHOLDS) :
    (t ≤ lvl →
      ThresholdAnalyzer.threshold_pop [⟨P, some lvl⟩] t = P ∧
      ThresholdAnalyzer.threshold_pct [⟨P, some lvl⟩] t = 100) ∧
    (lvl < t →
      ThresholdAnalyzer.threshold_pop [⟨P, some lvl⟩] t = 0 ∧
      ThresholdAnalyzer.threshold_pct [⟨P, some lvl⟩] t = 0) ∧
    (lvl < 0 → ThresholdAnalyzer.threshold_pop [⟨P, some lvl⟩] t = 0) := by
  have hpos : (1 : ℤ) ≤ t := by
    simp only [AsapConfig.WARNING_THRESHOLDS, List.mem_cons, List.not_mem_nil,
      or_false] at ht
    rcases ht with h | h | h | h <;> omega
  have htot : ThresholdAnalyzer.total_population [⟨P, some lvl⟩] = P := by
    simp [ThresholdAnalyzer.total_population]
  refine ⟨fun hle => ?_, fun hlt => ?_, fun hneg => ?_⟩
  · have hmem : ThresholdAnalyzer.member ⟨P, some lvl⟩ t = true := by
      simp [ThresholdAnalyzer.member]
      omega
    have hpop : ThresholdAnalyzer.threshold_pop [⟨P, some lvl⟩] t = P := by
      simp [ThresholdAnalyzer.threshold_pop, hmem]
    refine ⟨hpop, ?_⟩
    rw [ThresholdAnalyzer.threshold_pct, htot, if_pos hP, hpop,
      div_self (ne_of_gt hP)]
    norm_num
  · have hmem : ThresholdAnalyzer.member ⟨P, some lvl⟩ t = false := by
      simp [ThresholdAnalyzer.member]
      omega
    have hpop : ThresholdAnalyzer.threshold_pop [⟨P, some lvl⟩] t = 0 := by
      simp [ThresholdAnalyzer.threshold_pop, hmem]
    refine ⟨hpop, ?_⟩
    rw [ThresholdAnalyzer.threshold_pct, htot, if_pos hP, hpop]
    norm_num
  · have hmem : ThresholdAnalyzer.member ⟨P, some lvl⟩ t = false := by
      simp [ThresholdAnalyzer.member]
      omega
    simp [ThresholdAnalyzer.threshold_pop, hmem]

/-- C7 witness: population 5 at level 2 — threshold 1 gives exposed 5 and
percentage 100, threshold 3 gives exposed 0. -/
theorem C7_witness :
    ThresholdAnalyzer.threshold_pop [⟨5, some 2⟩] 1 = 5 ∧
    ThresholdAnalyzer.threshold_pct [⟨5, some 2⟩] 1 = 100 ∧
    ThresholdAnalyzer.threshold_pop [⟨5, some 2⟩] 3 = 0 := by
  have h1 := C7_single_cell_exposure 5 (by norm_num) 2 1 (by decide)
  have h3 := C7_single_cell_exposure 5 (by norm_num) 2 3 (by decide)
  exact ⟨(h1.1 (by norm_num)).1, (h1.1 (by norm_num)).2,
    (h3.2.1 (by norm_num)).1⟩

namespace Monitoring

/-- A persisted or freshly computed CountrySummary table: rows of cells. -/
abbrev Table := List (List String)

/-- `stratus.load_csv_from_blob("ds-rosea-thresholds/monitoring/summary.csv")`
as called in src/check_slow_onset.py line 36 with no surrounding handler: when
no snapshot blob exists the call raises, and the script has no fallback. -/
def load_summary_csv (prev : Option Table) : Except String Table :=
  match prev with
  | some t => .ok t
  | none => .error "ResourceNotFoundError: monitoring/summary.csv does not exist"

/-- `df_clean.compare(df_latest)` (src/check_slow_onset.py line 40): pandas
`DataFrame.compare` raises unless the two frames are identically labeled, and
otherwise keeps exactly the rows having at least one differing cell; only the
count of such rows is consumed (`len(diff)`). -/
def compare (a b : Table) : Except String ℕ :=
  if a.length = b.length ∧
      (a.zip b).all (fun rs => decide (rs.1.length = rs.2.length)) then
    .ok ((a.zip b).countP (fun rs => decide (rs.1 ≠ rs.2)))
  else
    .error "ValueError: Can only compare identically-labeled DataFrame objects"

/-- src/check_slow_onset.py, lines 36-43: load the previous snapshot, diff,
and decide publication by `len(diff) != 0 or args.force`.  The result is
whether the new outputs are written. -/
def check_slow_onset (prev : Option Table) (fresh : Table) (force : Bool) :
    Except String Bool :=
  (load_summary_csv prev).bind fun latest =>
  (compare fresh latest).bind fun d =>
  .ok (decide (d ≠ 0) || force)

theorem countP_ne_zip_eq_zero (a b : Table) (h : a.length = b.length) :
    ((a.zip b).countP (fun rs => decide (rs.1 ≠ rs.2)) = 0) ↔ a = b := by
  induction a generalizing b with
  | nil =>
    cases b with
    | nil => simp
    | cons y ys => simp at h
  | cons x xs ih =>
    cases b with
    | nil => simp at h
    | cons y ys =>
      have hlen : xs.length = ys.length := by simpa using h
      by_cases hxy : x = y
      · subst hxy
        constructor
        · intro h0
          rw [List.zip_cons_cons, List.countP_cons] at h0
          have hx : (decide (¬((x, x).1 = (x, x).2)) : Bool) = false := by simp
          rw [hx] at h0
          simp only [Bool.false_eq_true, if_false, Nat.add_zero] at h0
          exact congrArg (List.cons x) ((ih ys hlen).mp h0)
        · intro he
          injection he with h1 h2
          have h0 := (ih ys hlen).mpr h2
          rw [List.zip_cons_cons, List.countP_cons, h0]
          simp
      · simp [List.zip_cons_cons, List.countP_cons, hxy]

end Monitoring

/-- C8 counterexample: on the first run there is no persisted snapshot, and
the pipeline fails at the snapshot load — it does not treat the new summary
as changed and publish. -/
theorem C8_counterexample :
    Monitoring.check_slow_onset none [["KEN", "high"]] false =
      Except.error "ResourceNotFoundError: monitoring/summary.csv does not exist" :=
  rfl

/-- C8 amended: the first run (no snapshot) raises instead of publishing; on
every subsequent run against an identically-shaped previous snapshot, the run
is flagged changed exactly when some cell differs (or the force flag is set),
for the table as a whole. -/
theorem C8_change_detection (prev fresh : Monitoring.Table) (force : Bool)
    (hlen : fresh.length = prev.length)
    (hrow : ∀ rs ∈ fresh.zip prev, rs.1.length = rs.2.length) :
    Monitoring.check_slow_onset (some prev) fresh force =
      Except.ok (decide (fresh ≠ prev) || force) := by
  unfold Monitoring.check_slow_onset Monitoring.load_summary_csv
  rw [except_bind_ok, Monitoring.compare, if_pos]
  · rw [except_bind_ok]
    have hd : (decide (¬(fresh.zip prev).countP
        (fun rs => decide (rs.1 ≠ rs.2)) = 0) : Bool) = decide (¬fresh = prev) :=
      decide_eq_decide.mpr
        (not_congr (Monitoring.countP_ne_zip_eq_zero fresh prev hlen))
    rw [hd]
  · exact ⟨hlen, List.all_eq_true.mpr (fun rs hrs => decide_eq_true (hrow rs hrs))⟩

/-- C8 witness: a one-row snapshot — a differing cell publishes, identical
tables do not. -/
theorem C8_witness :
    Monitoring.check_slow_onset (some [["KEN", "low"]]) [["KEN", "high"]] false =
      Except.ok true ∧
    Monitoring.check_slow_onset (some [["KEN", "low"]]) [["KEN", "low"]] false =
      Except.ok false := by
  have h1 := C8_change_detection [["KEN", "low"]] [["KEN", "high"]] false rfl
    (by decide)
  have h2 := C8_change_detection [["KEN", "low"]] [["KEN", "low"]] false rfl
    (by decide)
  rw [h1, h2]
  constructor
  · decide
  · decide

/-- One raw hotspot record: `asap0_id` (the grouping key) and `hs_code`.
The frame is sorted by (country, date), so each country's rows are
contiguous and in date order. -/
structure HotspotRow where
  country : ℕ
  code : ℤ
deriving DecidableEq, Repr

namespace Asap

def codeAt (rows : List HotspotRow) (i : ℕ) : Option ℤ :=
  rows[i]?.map HotspotRow.code

def countryAt (rows : List HotspotRow) (i : ℕ) : Option ℕ :=
  rows[i]?.map HotspotRow.country

/-- `_df["hs_code"] != _df["hs_code"].shift()` at row i (the whole-frame
shift of src/src/datasources/asap.py line 38; the first row compares against
NaN and is True). -/
def changeFlag (rows : List HotspotRow) : ℕ → Bool
  | 0 => true
  | j + 1 => decide (codeAt rows (j + 1) ≠ codeAt rows j)

/-- `.cumsum()` of the change flags: the global run identifier of row i. -/
def runId (rows : List HotspotRow) (i : ℕ) : ℕ :=
  (List.range (i + 1)).countP (changeFlag rows)

/-- `groupby([asap0_id, runid]).cumcount()` at row i: the number of earlier
rows in the same (country, run id) group. -/
def cumcount (rows : List HotspotRow) (i : ℕ) : ℕ :=
  (List.range i).countP (fun j =>
    decide (countryAt rows j = countryAt rows i) &&
      decide (runId rows j = runId rows i))

/-- src/src/datasources/asap.py `_classify_row` (lines 10-20). -/
def classify_row (code : ℤ) (cc : ℕ) : Option String :=
  if code = 0 then some "low"
  else if code = 1 ∧ cc < Constants.HIGH_CONSEC then some "medium"
  else if code = 1 ∧ cc ≥ Constants.HIGH_CONSEC then some "high"
  else if code = 2 then some "very high"
  else none

/-- src/src/datasources/asap.py `classify_hotspots` (lines 35-44): the
alert-level column, one entry per input row. -/
def classify_hotspots (rows : List HotspotRow) : List (Option String) :=
  (List.range rows.length).map (fun i =>
    match rows[i]? with
    | some r => classify_row r.code (cumcount rows i)
    | none => none)

/-- Modelled from the spec: the 0-based position of row i inside the maximal
run of consecutive identical codes for its country — resets to 0 whenever
the code (or the country) changes, increments by 1 otherwise. -/
def specPos (rows : List HotspotRow) : ℕ → ℕ
  | 0 => 0
  | j + 1 =>
    match rows[j]?, rows[j + 1]? with
    | some a, some b =>
      if a.country = b.country ∧ a.code = b.code then specPos rows j + 1 else 0
    | _, _ => 0

/-- Modelled from the spec: the decision table of §4.2 at
(hotspot code, run position), with HIGH_CONSEC = 3. -/
def decisionTable (code : ℤ) (pos : ℕ) : Option String :=
  if code = 0 then some "low"
  else if code = 1 then (if pos < 3 then some "medium" else some "high")
  else if code = 2 then some "very high"
  else none

/-- The rows of each country are contiguous (the frame is sorted by country
then date): between two rows of one country no row of another intervenes. -/
def countryContiguous (rows : List HotspotRow) : Prop :=
  ∀ k, k < rows.length → ∀ j, j < k → ∀ i, i < j →
    countryAt rows i = countryAt rows k → countryAt rows j = countryAt rows i

theorem runId_succ_true (rows : List HotspotRow) (j : ℕ)
    (hc : changeFlag rows (j + 1) = true) :
    runId rows (j + 1) = runId rows j + 1 := by
  unfold runId
  rw [List.range_succ, List.countP_append]
  simp [List.countP_cons, hc]

theorem runId_succ_false (rows : List HotspotRow) (j : ℕ)
    (hc : changeFlag rows (j + 1) = false) :
    runId rows (j + 1) = runId rows j := by
  unfold runId
  rw [List.range_succ, List.countP_append]
  simp [List.countP_cons, hc]

theorem runId_mono (rows : List HotspotRow) (i j : ℕ) (h : i ≤ j) :
    runId rows i ≤ runId rows j := by
  induction j with
  | zero => exact Nat.le_zero.mp h ▸ Nat.le_refl _
  | succ j ih =>
    rcases Nat.lt_or_ge i (j + 1) with hlt | hge
    · have hle := ih (Nat.lt_succ_iff.mp hlt)
      cases hc : changeFlag rows (j + 1) with
      | false => rw [runId_succ_false rows j hc]; exact hle
      | true => rw [runId_succ_true rows j hc]; omega
    · have heq : i = j + 1 := Nat.le_antisymm h hge
      rw [heq]

theorem runId_lt_of_flag (rows : List HotspotRow) (j m : ℕ) (hm : m ≤ j)
    (hc : changeFlag rows (j + 1) = true) :
    runId rows m < runId rows (j + 1) := by
  have h1 := runId_mono rows m j hm
  rw [runId_succ_true rows j hc]
  omega

theorem countP_congr_nat (p q : ℕ → Bool) (l : List ℕ)
    (h : ∀ a ∈ l, p a = q a) : l.countP p = l.countP q := by
  induction l with
  | nil => rfl
  | cons x xs ih =>
    rw [List.countP_cons, List.countP_cons, h x (List.mem_cons_self x xs),
      ih (fun a ha => h a (List.mem_cons_of_mem x ha))]

theorem cumcount_succ_of_same (rows : List HotspotRow) (j : ℕ)
    (a b : HotspotRow) (ha : rows[j]? = some a) (hb : rows[j + 1]? = some b)
    (hcountry : a.country = b.country) (hcode : a.code = b.code) :
    cumcount rows (j + 1) = cumcount rows j + 1 := by
  have hflag : changeFlag rows (j + 1) = false := by
    simp [changeFlag, codeAt, ha, hb, hcode]
  have hrun : runId rows (j + 1) = runId rows j := runId_succ_false rows j hflag
  have hca : countryAt rows (j + 1) = countryAt rows j := by
    simp [countryAt, ha, hb, hcountry]
  unfold cumcount
  rw [List.range_succ, List.countP_append]
  have hone : List.countP (fun m =>
      decide (countryAt rows m = countryAt rows (j + 1)) &&
        decide (runId rows m = runId rows (j + 1))) [j] = 1 := by
    simp [List.countP_cons, hca, hrun]
  rw [hone]
  congr 1
  apply countP_congr_nat
  intro m _
  rw [hca, hrun]

theorem cumcount_zero_of_codechange (rows : List HotspotRow) (j : ℕ)
    (a b : HotspotRow) (ha : rows[j]? = some a) (hb : rows[j + 1]? = some b)
    (hcode : a.code ≠ b.code) :
    cumcount rows (j + 1) = 0 := by
  have hflag : changeFlag rows (j + 1) = true := by
    simp [changeFlag, codeAt, ha, hb]
    exact fun h => hcode h.symm
  unfold cumcount
  apply List.countP_eq_zero.mpr
  intro m hm
  simp only [List.mem_range] at hm
  have hlt := runId_lt_of_flag rows j m (Nat.lt_succ_iff.mp hm) hflag
  simp only [Bool.and_eq_true, decide_eq_true_eq, not_and]
  intro _
  omega

theorem cumcount_zero_of_countrychange (rows : List HotspotRow)
    (hcont : countryContiguous rows) (j : ℕ) (a b : HotspotRow)
    (hlen : j + 1 < rows.length) (ha : rows[j]? = some a)
    (hb : rows[j + 1]? = some b) (hcountry : a.country ≠ b.country) :
    cumcount rows (j + 1) = 0 := by
  have h1 : countryAt rows j = some a.country := by simp [countryAt, ha]
  have h2 : countryAt rows (j + 1) = some b.country := by simp [countryAt, hb]
  unfold cumcount
  apply List.countP_eq_zero.mpr
  intro m hm
  simp only [List.mem_range] at hm
  simp only [Bool.and_eq_true, decide_eq_true_eq, not_and]
  intro hcm
  exfalso
  rcases Nat.lt_succ_iff_lt_or_eq.mp hm with hmj | hmj
  · have hchain := hcont (j + 1) hlen j (Nat.lt_succ_self j) m hmj hcm
    rw [hcm, h2] at hchain
    rw [h1] at hchain
    exact hcountry (Option.some.inj hchain)
  · rw [hmj, h1, h2] at hcm
    exact hcountry (Option.some.inj hcm)

theorem cumcount_eq_specPos (rows : List HotspotRow)
    (hcont : countryContiguous rows) :
    ∀ i, i < rows.length → cumcount rows i = specPos rows i := by
  intro i
  induction i with
  | zero => intro _; rfl
  | succ j ih =>
    intro hlen
    have hj : j < rows.length := Nat.lt_of_succ_lt hlen
    cases ha : rows[j]? with
    | none =>
      exfalso
      have hsome := List.getElem?_eq_getElem hj
      rw [ha] at hsome
      exact Option.noConfusion hsome
    | some a =>
      cases hb : rows[j + 1]? with
      | none =>
        exfalso
        have hsome := List.getElem?_eq_getElem hlen
        rw [hb] at hsome
        exact Option.noConfusion hsome
      | some b =>
        have hspec : specPos rows (j + 1) =
            if a.country = b.country ∧ a.code = b.code then specPos rows j + 1
            else 0 := by
          simp only [specPos, ha, hb]
        by_cases hcc : a.country = b.country ∧ a.code = b.code
        · rw [hspec, if_pos hcc,
            cumcount_succ_of_same rows j a b ha hb hcc.1 hcc.2, ih hj]
        · rw [hspec, if_neg hcc]
          by_cases hcode : a.code = b.code
          · have hcountry : a.country ≠ b.country := fun h => hcc ⟨h, hcode⟩
            exact cumcount_zero_of_countrychange rows hcont j a b hlen ha hb
              hcountry
          · exact cumcount_zero_of_codechange rows j a b ha hb hcode

theorem classify_row_eq_table (code : ℤ) (cc : ℕ) :
    classify_row code cc = decisionTable code cc := by
  unfold classify_row decisionTable Constants.HIGH_CONSEC
  split_ifs <;> first | rfl | omega

end Asap

/-- C4: `classify_hotspots` assigns every record the alert level of the
decision table applied to (hotspot code, 0-based position within the maximal
run of consecutive identical codes of its country): the pandas cumcount over
(asap0_id, cumulative change flag) groups equals the per-country run
position, which resets to 0 on a code change and increments by 1 otherwise,
independently per country (given the frame's country-contiguous sort
order). -/
theorem C4_hotspot_classification (rows : List HotspotRow)
    (hcont : Asap.countryContiguous rows) (i : ℕ) (hi : i < rows.length)
    (r : HotspotRow) (hr : rows[i]? = some r) :
    (Asap.classify_hotspots rows)[i]? =
      some (Asap.decisionTable r.code (Asap.specPos rows i)) ∧
    Asap.cumcount rows i = Asap.specPos rows i := by
  have hpos := Asap.cumcount_eq_specPos rows hcont i hi
  refine ⟨?_, hpos⟩
  unfold Asap.classify_hotspots
  rw [List.getElem?_map, List.getElem?_range hi, Option.map_some']
  rw [hr, hpos]
  exact congrArg some (Asap.classify_row_eq_table r.code (Asap.specPos rows i))

/-- C4 witness input: one country ("Kenya"), hotspot codes [1,1,1,1] on
consecutive dates. -/
def kenyaRows : List HotspotRow := [⟨1, 1⟩, ⟨1, 1⟩, ⟨1, 1⟩, ⟨1, 1⟩]

/-- C4 witness: the sequence [1,1,1,1] with HIGH_CONSEC = 3 yields
["medium","medium","medium","high"], and the final record is what the
decision table gives at run position 3. -/
theorem C4_witness :
    Asap.classify_hotspots kenyaRows =
      [some "medium", some "medium", some "medium", some "high"] ∧
    (Asap.classify_hotspots kenyaRows)[3]? =
      some (Asap.decisionTable 1 (Asap.specPos kenyaRows 3)) := by
  constructor
  · decide
  · exact (C4_hotspot_classification kenyaRows
      (by unfold Asap.countryContiguous; decide) 3 (by decide)
      ⟨1, 1⟩ (by decide)).1

/-- The module-level names defined in src/src/datasources/asap.py (the whole
module, lines 1-45). -/
def asapModuleAttrs : List String :=
  ["_classify_row", "get_hotspots", "classify_hotspots"]

/-- Python attribute access `asap.<name>`: succeeds only for names the module
defines, otherwise raises AttributeError. -/
def getattr_asap (name : String) : Except String String :=
  if name ∈ asapModuleAttrs then .ok name
  else .error
    ("AttributeError: module src.datasources.asap has no attribute " ++ name)

/-- How far a monitoring run gets. -/
inductive PipelineStage where
  | hotspotsLatest
  | merged
  | published
deriving DecidableEq, Repr

/-- src/check_slow_onset.py, lines 22-33: classify the fetched hotspots, call
`asap.proccess_latest_hotspots`, then classify IPC and merge; the later
stages are only reached if the attribute lookup succeeds. -/
def check_slow_onset_pipeline (hsRaw : List HotspotRow)
    (ipcWide : List IpcRow) : Except String PipelineStage :=
  let _hsClassified := Asap.classify_hotspots hsRaw
  (getattr_asap "proccess_latest_hotspots").bind fun _f =>
  (Ipc.classify_reports ipcWide).bind fun _ipcClassified =>
  .ok PipelineStage.published

/-- src/monitoring.py, cell at lines 76-86: the same sequence of calls inside
the notebook entry point. -/
def monitoring_pipeline (hsRaw : List HotspotRow) (ipcWide : List IpcRow) :
    Except String PipelineStage :=
  let _hsClassified := Asap.classify_hotspots hsRaw
  (getattr_asap "proccess_latest_hotspots").bind fun _f =>
  (Ipc.classify_reports ipcWide).bind fun _ipcClassified =>
  .ok PipelineStage.published

/-- C9: `asap.proccess_latest_hotspots` is called by both monitoring entry
points between hotspot classification and the merge, but
src/src/datasources/asap.py defines no such function, so for every input
both pipelines raise an AttributeError at that call and never reach the
merge, change detection, or publication steps. -/
theorem C9_missing_attribute (hsRaw : List HotspotRow)
    (ipcWide : List IpcRow) :
    check_slow_onset_pipeline hsRaw ipcWide =
      Except.error
        "AttributeError: module src.datasources.asap has no attribute proccess_latest_hotspots" ∧
    monitoring_pipeline hsRaw ipcWide =
      Except.error
        "AttributeError: module src.datasources.asap has no attribute proccess_latest_hotspots" := by
  constructor
  · rfl
  · rfl

/-- One classified IPC record as fed to `process_latest_ipc`: location code,
report type, and the period end `To` (as an integer timestamp). -/
structure IpcLatestRow where
  location : String
  ipcType : String
  toDate : ℤ
deriving DecidableEq, Repr

namespace Ipc

/-- The ordered pandas Categorical of src/src/datasources/ipc.py lines
223-226: `current` before `first projection` before `second projection`,
anything else becomes NaN and sorts last. -/
def typePriority (t : String) : ℕ :=
  if t = "current" then 0
  else if t = "first projection" then 1
  else if t = "second projection" then 2
  else 3

/-- Lexicographic strict order on strings by code point (the order pandas
sorts location codes in). -/
def strLT : List Char → List Char → Bool
  | [], [] => false
  | [], _ :: _ => true
  | _ :: _, [] => false
  | c :: cs, d :: ds =>
    if c.toNat < d.toNat then true
    else if d.toNat < c.toNat then false
    else strLT cs ds

def rowLE (a b : IpcLatestRow) : Bool :=
  strLT a.location.toList b.location.toList ||
    (decide (a.location = b.location) &&
      decide (typePriority a.ipcType ≤ typePriority b.ipcType))

def insertSorted (x : IpcLatestRow) :
    List IpcLatestRow → List IpcLatestRow
  | [] => [x]
  | y :: ys => if rowLE x y then x :: y :: ys else y :: insertSorted x ys

/-- `sort_values(["location_code", "ipc_type_cat"])` (line 228): a sort by
(location, type priority); the tie order among equal keys is not part of any
property proved below, matching pandas' unstable default sort. -/
def sortRows : List IpcLatestRow → List IpcLatestRow
  | [] => []
  | x :: xs => insertSorted x (sortRows xs)

/-- `drop_duplicates(subset=["location_code"], keep="first")` (line 229). -/
def dropDupAux (seen : List String) :
    List IpcLatestRow → List IpcLatestRow
  | [] => []
  | r :: rest =>
    if r.location ∈ seen then dropDupAux seen rest
    else r :: dropDupAux (r.location :: seen) rest

/-- src/src/datasources/ipc.py `process_latest_ipc` (lines 219-235): filter
to currently active periods (`To > now`), sort by location and type
priority, keep the first record per location, then assert that the number of
distinct active locations equals the result size. -/
def process_latest_ipc (now : ℤ) (rows : List IpcLatestRow) :
    Except String (List IpcLatestRow) :=
  let active := rows.filter (fun r => decide (now < r.toDate))
  let deduped := dropDupAux [] (sortRows active)
  if (active.map IpcLatestRow.location).dedup.length = deduped.length then
    .ok deduped
  else .error "AssertionError: more than one latest record per location"

theorem insertSorted_perm (x : IpcLatestRow) (l : List IpcLatestRow) :
    (insertSorted x l).Perm (x :: l) := by
  induction l with
  | nil => exact List.Perm.refl _
  | cons y ys ih =>
    unfold insertSorted
    by_cases h : rowLE x y = true
    · rw [if_pos h]
    · rw [if_neg h]
      exact (List.Perm.cons y ih).trans (List.Perm.swap x y ys)

theorem sortRows_perm (l : List IpcLatestRow) : (sortRows l).Perm l := by
  induction l with
  | nil => exact List.Perm.refl _
  | cons x xs ih =>
    exact (insertSorted_perm x (sortRows xs)).trans (List.Perm.cons x ih)

theorem dropDupAux_mem (l : List IpcLatestRow) :
    ∀ (seen : List String) (s : String),
      s ∈ (dropDupAux seen l).map IpcLatestRow.location ↔
        (s ∈ l.map IpcLatestRow.location ∧ s ∉ seen) := by
  induction l with
  | nil => intro seen s; simp [dropDupAux]
  | cons r rest ih =>
    intro seen s
    by_cases hr : r.location ∈ seen
    · rw [dropDupAux, if_pos hr, ih seen s]
      simp only [List.map_cons, List.mem_cons]
      constructor
      · rintro ⟨hm, hs⟩
        exact ⟨Or.inr hm, hs⟩
      · rintro ⟨heq | hm, hs⟩
        · exact absurd (heq ▸ hr) hs
        · exact ⟨hm, hs⟩
    · rw [dropDupAux, if_neg hr]
      simp only [List.map_cons, List.mem_cons, ih (r.location :: seen) s,
        List.mem_cons]
      constructor
      · rintro (heq | ⟨hm, hs⟩)
        · exact ⟨Or.inl heq, heq ▸ hr⟩
        · exact ⟨Or.inr hm, fun hseen => hs (Or.inr hseen)⟩
      · rintro ⟨heq | hm, hs⟩
        · exact Or.inl heq
        · by_cases hrl : s = r.location
          · exact Or.inl hrl
          · exact Or.inr ⟨hm, fun hc => hc.elim hrl hs⟩

theorem dropDupAux_nodup (l : List IpcLatestRow) :
    ∀ seen : List String,
      ((dropDupAux seen l).map IpcLatestRow.location).Nodup := by
  induction l with
  | nil => intro seen; simp [dropDupAux]
  | cons r rest ih =>
    intro seen
    by_cases hr : r.location ∈ seen
    · rw [dropDupAux, if_pos hr]
      exact ih seen
    · rw [dropDupAux, if_neg hr]
      rw [List.map_cons, List.nodup_cons]
      refine ⟨fun hc => ?_, ih (r.location :: seen)⟩
      exact ((dropDupAux_mem rest (r.location :: seen) r.location).mp hc).2
        (List.mem_cons_self _ _)

theorem dropDup_sort_length (l : List IpcLatestRow) :
    (dropDupAux [] (sortRows l)).length =
      (l.map IpcLatestRow.location).dedup.length := by
  have hperm : ((sortRows l).map IpcLatestRow.location).Perm
      (l.map IpcLatestRow.location) := (sortRows_perm l).map _
  have hnd := dropDupAux_nodup (sortRows l) []
  have hfin : ((dropDupAux [] (sortRows l)).map IpcLatestRow.location).toFinset
      = (l.map IpcLatestRow.location).toFinset := by
    ext s
    rw [List.mem_toFinset, List.mem_toFinset, dropDupAux_mem]
    simp only [List.not_mem_nil, not_false_iff, and_true]
    exact hperm.mem_iff
  calc (dropDupAux [] (sortRows l)).length
      = ((dropDupAux [] (sortRows l)).map IpcLatestRow.location).length := by
        rw [List.length_map]
    _ = ((dropDupAux [] (sortRows l)).map IpcLatestRow.location).toFinset.card :=
        (List.toFinset_card_of_nodup hnd).symm
    _ = (l.map IpcLatestRow.location).toFinset.card := by rw [hfin]
    _ = (l.map IpcLatestRow.location).dedup.length := List.card_toFinset _

end Ipc

/-- C5 amended: the latest-report selection never raises — `drop_duplicates`
keeps exactly one record per location by construction, so the assertion
(distinct active locations == result size) always holds and the selection
silently keeps one of any tied records instead of raising: for every input,
the call returns a table whose locations are pairwise distinct and whose row
count is the number of distinct locations among the active records. -/
theorem C5_latest_selection (now : ℤ) (rows : List IpcLatestRow) :
    ∃ out, Ipc.process_latest_ipc now rows = Except.ok out ∧
      (out.map IpcLatestRow.location).Nodup ∧
      out.length = ((rows.filter (fun r => decide (now < r.toDate))).map
        IpcLatestRow.location).dedup.length := by
  have hnd := Ipc.dropDupAux_nodup
    (Ipc.sortRows (rows.filter (fun r => decide (now < r.toDate)))) []
  have hlen := Ipc.dropDup_sort_length
    (rows.filter (fun r => decide (now < r.toDate)))
  refine ⟨Ipc.dropDupAux []
    (Ipc.sortRows (rows.filter (fun r => decide (now < r.toDate)))),
    ?_, hnd, hlen⟩
  rw [Ipc.process_latest_ipc, if_pos hlen.symm]

/-- C5 counterexample input: two currently-active records for the same
location with the same ipc_type "current" — more than one record beyond what
the type priority can resolve. -/
def dupActiveRows : List IpcLatestRow :=
  [⟨"KEN", "current", 10⟩, ⟨"KEN", "current", 20⟩]

/-- C5 counterexample: with two tied active records for location KEN, the
selection returns successfully with a single silently-picked record — it
does not raise a data-integrity error, refuting "raises unless exactly one
record per location survives". -/
theorem C5_counterexample :
    Ipc.process_latest_ipc 0 dupActiveRows =
      Except.ok [⟨"KEN", "current", 10⟩] := by decide

namespace Utils

/-- The rows an outer merge produces for one left row `l`: one row per
matching right row, or a single row with a null right side when there is no
match. -/
def mergeBlock (ipc : List (String × String)) (l : String × String) :
    List (String × Option String × Option String) :=
  let ms := ipc.filter (fun r => decide (r.1 = l.1))
  if ms.isEmpty then [(l.1, some l.2, none)]
  else ms.map (fun r => (l.1, some l.2, some r.2))

/-- The pandas outer merge of src/src/utils.py lines 2-7 on key
`location_code`: matched pairs (cartesian per key), then left-only rows with
a null right side, then right-only rows with a null left side.  Payloads are
the remaining columns of each side, abstracted to one string. -/
def outerMerge (hs ipc : List (String × String)) :
    List (String × Option String × Option String) :=
  hs.flatMap (mergeBlock ipc) ++
  (ipc.filter (fun r => hs.all (fun l => decide (l.1 ≠ r.1)))).map
    (fun r => (r.1, none, some r.2))

/-- src/src/utils.py `merge_ipc_hotspots` (lines 1-19): outer merge then
`assert len(df_merged) == max(len(df_hs), len(df_ipc))`. -/
def merge_ipc_hotspots (hs ipc : List (String × String)) :
    Except String (List (String × Option String × Option String)) :=
  let merged := outerMerge hs ipc
  if merged.length = max hs.length ipc.length then .ok merged
  else .error "AssertionError: merged length differs from max input length"

theorem filter_key_len_le_one (ipc : List (String × String))
    (hnd : (ipc.map Prod.fst).Nodup) (k : String) :
    (ipc.filter (fun r => decide (r.1 = k))).length ≤ 1 := by
  induction ipc with
  | nil => simp
  | cons y ys ih =>
    rw [List.map_cons, List.nodup_cons] at hnd
    by_cases hk : y.1 = k
    · have hnil : ys.filter (fun r => decide (r.1 = k)) = [] := by
        rw [List.filter_eq_nil_iff]
        intro r hr
        simp only [decide_eq_true_eq]
        intro hrk
        exact hnd.1 (hk ▸ hrk ▸ List.mem_map_of_mem Prod.fst hr)
      simp [List.filter_cons, hk, hnil]
    · simp only [List.filter_cons, decide_eq_true_eq, hk, if_false]
      exact ih hnd.2

theorem mergeBlock_length (ipc : List (String × String))
    (hni : (ipc.map Prod.fst).Nodup) (l : String × String) :
    (mergeBlock ipc l).length = 1 := by
  rw [mergeBlock]
  cases hF : ipc.filter (fun r => decide (r.1 = l.1)) with
  | nil => simp [hF]
  | cons a as =>
    have hle := filter_key_len_le_one ipc hni l.1
    rw [hF] at hle
    simp only [hF, List.isEmpty_cons, Bool.false_eq_true, if_false,
      List.length_map]
    simp only [List.length_cons] at hle ⊢
    omega

theorem bind_blocks_length (hs ipc : List (String × String))
    (hni : (ipc.map Prod.fst).Nodup) :
    (hs.flatMap (mergeBlock ipc)).length = hs.length := by
  induction hs with
  | nil => rfl
  | cons x xs ih =>
    rw [List.flatMap_cons, List.length_append, ih, List.length_cons,
      mergeBlock_length ipc hni x]
    omega

theorem all_ne_eq_not_mem (hs : List (String × String)) (k : String) :
    (hs.all fun l => decide (l.1 ≠ k)) = decide (k ∉ hs.map Prod.fst) := by
  rw [Bool.eq_iff_iff]
  simp only [List.all_eq_true, decide_eq_true_eq, List.mem_map, not_exists,
    not_and]

theorem map_fst_filter_key (p : String → Bool) (l : List (String × String)) :
    (l.filter (fun r => p r.1)).map Prod.fst = (l.map Prod.fst).filter p := by
  induction l with
  | nil => rfl
  | cons y ys ih =>
    by_cases hp : p y.1 = true
    · simp [List.filter_cons, hp, ih]
    · simp [List.filter_cons, hp, ih]

theorem right_part_length (hs ipc : List (String × String))
    (hni : (ipc.map Prod.fst).Nodup) :
    ((ipc.filter (fun r => hs.all (fun l => decide (l.1 ≠ r.1)))).map
      (fun r => (r.1, (none : Option String), some r.2))).length =
    ((ipc.map Prod.fst).toFinset \ (hs.map Prod.fst).toFinset).card := by
  rw [List.length_map]
  have hpe : ∀ r ∈ ipc, (hs.all fun l => decide (l.1 ≠ r.1)) =
      decide (r.1 ∉ hs.map Prod.fst) := fun r _ => all_ne_eq_not_mem hs r.1
  rw [List.filter_congr hpe]
  have hnd2 : ((ipc.map Prod.fst).filter
      (fun k => decide (k ∉ hs.map Prod.fst))).Nodup := hni.filter _
  rw [← List.length_map _ Prod.fst,
    map_fst_filter_key (fun k => decide (k ∉ hs.map Prod.fst)) ipc,
    ← List.toFinset_card_of_nodup hnd2]
  congr 1
  ext k
  simp only [List.mem_toFinset, List.mem_filter, Finset.mem_sdiff,
    decide_eq_true_eq]

theorem outerMerge_length (hs ipc : List (String × String))
    (hnh : (hs.map Prod.fst).Nodup) (hni : (ipc.map Prod.fst).Nodup) :
    (outerMerge hs ipc).length =
      ((hs.map Prod.fst).toFinset ∪ (ipc.map Prod.fst).toFinset).card := by
  rw [outerMerge, List.length_append, bind_blocks_length hs ipc hni,
    right_part_length hs ipc hni]
  have hA : hs.length = (hs.map Prod.fst).toFinset.card := by
    rw [List.toFinset_card_of_nodup hnh, List.length_map]
  rw [hA, add_comm, Finset.card_sdiff_add_card, Finset.union_comm]

theorem union_card_eq_max_iff (S T : Finset String) :
    (S ∪ T).card = max S.card T.card ↔ S ⊆ T ∨ T ⊆ S := by
  constructor
  · intro h
    rcases le_total S.card T.card with hle | hle
    · left
      have hcard : (S ∪ T).card ≤ T.card := by rw [h]; omega
      have heq : S ∪ T = T :=
        (Finset.eq_of_subset_of_card_le Finset.subset_union_right hcard).symm
      exact heq ▸ Finset.subset_union_left
    · right
      have hcard : (S ∪ T).card ≤ S.card := by rw [h]; omega
      have heq : S ∪ T = S :=
        (Finset.eq_of_subset_of_card_le Finset.subset_union_left hcard).symm
      exact heq ▸ Finset.subset_union_right
  · intro h
    rcases h with h | h
    · rw [Finset.union_eq_right.mpr h, max_eq_right (Finset.card_le_card h)]
    · rw [Finset.union_eq_left.mpr h, max_eq_left (Finset.card_le_card h)]

end Utils

/-- C3 counterexample inputs: one hotspot-alert country and one IPC-alert
country, disjoint. -/
def hsOnly : List (String × String) := [("AGO", "low")]

def ipcOnly : List (String × String) := [("KEN", "medium")]

/-- C3 counterexample: on disjoint nonempty country sets the outer join has
sum-many rows (2), max is 1, and `merge_ipc_hotspots` raises its assertion
instead of returning the claimed table — the claim's "row count = max" and
"disjoint fixture row count = sum" cannot both hold and the code raises. -/
theorem C3_counterexample :
    (Utils.outerMerge hsOnly ipcOnly).length = 2 ∧
    max hsOnly.length ipcOnly.length = 1 ∧
    Utils.merge_ipc_hotspots hsOnly ipcOnly =
      Except.error "AssertionError: merged length differs from max input length" := by
  refine ⟨rfl, rfl, rfl⟩

/-- C3 amended: for unique-key inputs the outer join's row count is the size
of the union of the two country sets; the merge returns (and its row count
equals max of the input counts) exactly when one country set contains the
other — in every other case, including disjoint nonempty sets where the join
would have sum-many rows, the assertion fails and the merge raises. -/
theorem C3_merge_rowcount (hs ipc : List (String × String))
    (hnh : (hs.map Prod.fst).Nodup) (hni : (ipc.map Prod.fst).Nodup) :
    (Utils.outerMerge hs ipc).length =
      ((hs.map Prod.fst).toFinset ∪ (ipc.map Prod.fst).toFinset).card ∧
    ((∃ out, Utils.merge_ipc_hotspots hs ipc = Except.ok out ∧
        out.length = max hs.length ipc.length) ↔
      ((hs.map Prod.fst).toFinset ⊆ (ipc.map Prod.fst).toFinset ∨
        (ipc.map Prod.fst).toFinset ⊆ (hs.map Prod.fst).toFinset)) := by
  have hlen := Utils.outerMerge_length hs ipc hnh hni
  have hcards : (hs.map Prod.fst).toFinset.card = hs.length := by
    rw [List.toFinset_card_of_nodup hnh, List.length_map]
  have hcardi : (ipc.map Prod.fst).toFinset.card = ipc.length := by
    rw [List.toFinset_card_of_nodup hni, List.length_map]
  refine ⟨hlen, ?_, ?_⟩
  · rintro ⟨out, hok, _⟩
    rw [Utils.merge_ipc_hotspots] at hok
    by_cases hc : (Utils.outerMerge hs ipc).length = max hs.length ipc.length
    · apply (Utils.union_card_eq_max_iff _ _).mp
      rw [hcards, hcardi, ← hlen]
      exact hc
    · rw [if_neg hc] at hok
      exact absurd hok (fun h => Except.noConfusion h)
  · intro hsub
    have hmax := (Utils.union_card_eq_max_iff (hs.map Prod.fst).toFinset
      (ipc.map Prod.fst).toFinset).mpr hsub
    have hc : (Utils.outerMerge hs ipc).length = max hs.length ipc.length := by
      rw [hlen, hmax, hcards, hcardi]
    exact ⟨Utils.outerMerge hs ipc,
      by rw [Utils.merge_ipc_hotspots, if_pos hc], hc⟩

/-- C3 witness: hotspot countries a subset of IPC countries — the merge
succeeds with row count max(1, 2) = 2. -/
theorem C3_witness :
    ∃ out, Utils.merge_ipc_hotspots [("KEN", "low")]
        [("KEN", "medium"), ("AGO", "high")] = Except.ok out ∧
      out.length = max ([("KEN", "low")] : List (String × String)).length
        ([("KEN", "medium"), ("AGO", "high")] : List (String × String)).length :=
  (C3_merge_rowcount [("KEN", "low")] [("KEN", "medium"), ("AGO", "high")]
    (by decide) (by decide)).2.mpr (Or.inl (by decide))
